import Mathlib

/-!
Shallow embedding of the product-detail page of the Akamee storefront
(`src/app/products/[id]/page.tsx`): the product data model, the catalog
resolver, the price display, the checkout button state, the active-image
state machine, and the `handleCheckout` orchestration, each translated
directly from the source, together with theorems settling the spec claims.
-/

namespace Akamee

/-- The `Product` record as described by the catalog data model and used by
the page: identifier, name, description, list price, optional subscription
price, stock count, category, image sequence, optional feature list and the
subscription-eligibility flag. -/
structure Product where
  id : String
  name : String
  description : String
  price : Nat
  subscriptionPrice : Option Nat
  stock : Nat
  category : String
  images : List String
  features : Option (List String)
  isSubscription : Bool
deriving Repr, DecidableEq

/-- Purchase mode state (`purchaseType`), defaulting to one-time. -/
inductive PurchaseType where
  | oneTime
  | subscription
deriving Repr, DecidableEq

/-- JavaScript string truthiness on an optional string: `undefined` and the
empty string are falsy.  Used for `errorData.error`, `data.sessionId` and
`result.error.message` checks. -/
def truthyStr : Option String → Option String
  | some s => if s = "" then none else some s
  | none => none

/-- Group the reversed digit list of a number into blocks of three separated
by commas, as `Intl.NumberFormat` does for the `ja-JP` locale. -/
def commaGroup : List Char → List Char
  | a :: b :: c :: d :: rest => a :: b :: c :: ',' :: commaGroup (d :: rest)
  | l => l

/-- `formatPrice` (page.tsx line 64): format a price with
`Intl.NumberFormat('ja-JP', \x7b style: 'currency', currency: 'JPY' \x7d)`,
which renders a fullwidth yen sign followed by comma-grouped digits. -/
def formatPrice (price : Nat) : String :=
  "￥" ++ String.mk ((commaGroup (toString price).toList.reverse).reverse)

/-- Bytes a Unicode code point occupies in UTF-8, used to model
`encodeURIComponent`'s percent-encoding. -/
def utf8Bytes (n : Nat) : List Nat :=
  if n < 128 then [n]
  else if n < 2048 then [192 + n / 64, 128 + n % 64]
  else if n < 65536 then [224 + n / 4096, 128 + (n / 64) % 64, 128 + n % 64]
  else [240 + n / 262144, 128 + (n / 4096) % 64, 128 + (n / 64) % 64, 128 + n % 64]

/-- Uppercase hexadecimal digit. -/
def hexDigit (n : Nat) : Char :=
  if n < 10 then Char.ofNat (48 + n) else Char.ofNat (55 + n)

/-- The bytes `encodeURIComponent` leaves unescaped: ASCII letters, digits,
and the marks `- _ . ! ~ * ( )` and the apostrophe. -/
def uriUnreserved (b : Nat) : Bool :=
  (65 ≤ b && b ≤ 90) || (97 ≤ b && b ≤ 122) || (48 ≤ b && b ≤ 57) ||
  b = 45 || b = 95 || b = 46 || b = 33 || b = 126 || b = 42 || b = 39 ||
  b = 40 || b = 41

/-- Percent-encode one UTF-8 byte unless it is unreserved. -/
def encodeByte (b : Nat) : String :=
  if uriUnreserved b then String.mk [Char.ofNat b]
  else String.mk ['%', hexDigit (b / 16), hexDigit (b % 16)]

/-- JavaScript `encodeURIComponent`. -/
def encodeURIComponent (s : String) : String :=
  String.join (s.toList.map (fun c => String.join ((utf8Bytes c.toNat).map encodeByte)))

/-- The product resolver (page.tsx line 45):
`products.find(p => p.id === id)`, a linear search by identifier equality. -/
def findProduct (catalog : List Product) (id : String) : Option Product :=
  catalog.find? (fun p => p.id == id)

/-- The page-level view: either the not-found state with its single
"go back" affordance, or the product detail view. -/
inductive PageView where
  | notFound
  | detail (p : Product)
deriving Repr, DecidableEq

/-- Top-level render decision (page.tsx lines 45-61): render the not-found
view when the resolver returns nothing, else the detail view. -/
def renderPage (catalog : List Product) (id : String) : PageView :=
  match findProduct catalog id with
  | none => PageView.notFound
  | some p => PageView.detail p

/-- The price display block (page.tsx lines 210-217): the primary slot
always shows `formatPrice(product.price)`; when the product is
subscription-eligible and the selected mode is subscription, a secondary
slot additionally shows `formatPrice(product.subscriptionPrice || 0)` with
the per-month suffix. -/
def priceDisplay (product : Product) (pt : PurchaseType) : String × Option String :=
  (formatPrice product.price,
   if product.isSubscription && pt == PurchaseType.subscription then
     some (formatPrice (product.subscriptionPrice.getD 0) ++ "/月")
   else none)

/-- The checkout button `disabled` attribute (page.tsx line 280):
`isLoading || product.stock <= 0`. -/
def checkoutDisabled (isLoading : Bool) (stock : Nat) : Bool :=
  isLoading || decide (stock ≤ 0)

/-- The checkout button label (page.tsx line 285):
loading shows the in-progress label, zero stock the out-of-stock label,
otherwise the purchase label. -/
def checkoutLabel (isLoading : Bool) (stock : Nat) : String :=
  if isLoading then "処理中..." else if stock ≤ 0 then "在庫切れ" else "購入する"

/-- The JSON body the checkout-session endpoint may return: an `error`
message on failure, a `sessionId` on success. -/
structure JsonBody where
  error : Option String
  sessionId : Option String
deriving Repr, DecidableEq

/-- Outcome of `await response.json()`: either a thrown parse exception
with its message, or a parsed value (`none` for a falsy value such as
JSON `null`, `some body` for an object). -/
inductive ParseOutcome where
  | thrown (msg : String)
  | value (v : Option JsonBody)
deriving Repr, DecidableEq

/-- The response of the `fetch('/api/create-checkout-session', ...)` call:
the `ok` flag and the outcome of `response.json()`. -/
structure FetchResponse where
  ok : Bool
  parseResult : ParseOutcome
deriving Repr, DecidableEq

/-- The environment `handleCheckout` runs against: the endpoint response,
whether `getStripe()` yields a client (vs `null`), the `result.error` that
`stripe.redirectToCheckout` reports (`none` = success; `some m` an error
whose `message` is `m`), the `NEXT_PUBLIC_SITE_URL` configuration value and
the browser origin. -/
structure CheckoutEnv where
  response : FetchResponse
  stripeClient : Bool
  redirectError : Option (Option String)
  siteUrl : Option String
  windowOrigin : String
deriving Repr, DecidableEq

/-- One line item of the checkout request payload (page.tsx lines 108-117). -/
structure CheckoutItem where
  name : String
  description : String
  images : List String
  price : Nat
  quantity : Nat
deriving Repr, DecidableEq

/-- The checkout request body (page.tsx lines 107-120). -/
structure CheckoutPayload where
  items : List CheckoutItem
  purchaseType : PurchaseType
deriving Repr, DecidableEq

/-- Resolve a product image reference to an absolute URL (page.tsx lines
89-97): a leading slash is prefixed with `NEXT_PUBLIC_SITE_URL` when that is
truthy, else with the browser origin. -/
def resolveImage (siteUrl : Option String) (origin : String) (img : String) : String :=
  if img.startsWith "/" then
    (match truthyStr siteUrl with
     | some u => u
     | none => origin) ++ img
  else img

/-- The unit price sent in the payload (page.tsx lines 113-115):
the subscription price when the mode is subscription and that price is
truthy (present and nonzero), else the base price. -/
def payloadPrice (product : Product) (pt : PurchaseType) : Nat :=
  if pt == PurchaseType.subscription then
    match product.subscriptionPrice with
    | some sp => if sp ≠ 0 then sp else product.price
    | none => product.price
  else product.price

/-- Build the checkout request body (page.tsx lines 88-120). -/
def buildPayload (product : Product) (pt : PurchaseType) (env : CheckoutEnv) :
    CheckoutPayload :=
  let productImages := product.images.map (resolveImage env.siteUrl env.windowOrigin)
  { items := [{ name := product.name
                description := product.description
                images := if productImages.length > 0 then productImages else []
                price := payloadPrice product pt
                quantity := 1 }]
    purchaseType := pt }

/-- Error message texts used by `handleCheckout`, verbatim from the source. -/
def configErrorMsg : String :=
  "決済システムの設定が完了していません。管理者にお問い合わせください。"

/-- Default message for a failed checkout-session call (page.tsx line 124). -/
def sessionCreateFailedMsg : String := "決済セッションの作成に失敗しました"

/-- Message thrown when the OK response carries no session id (line 138). -/
def missingSessionIdMsg : String := "セッションIDが取得できませんでした"

/-- Message thrown when `getStripe()` returns null (line 147). -/
def stripeInitFailedMsg : String :=
  "Stripeの初期化に失敗しました。ブラウザの設定を確認してください。"

/-- Fallback message for a redirect error without a message (line 158). -/
def redirectFailedMsg : String := "チェックアウトページへのリダイレクトに失敗しました"

/-- Prefix the catch block puts in front of every caught message (line 162). -/
def checkoutErrPrefix : String := "決済処理中にエラーが発生しました: "

/-- The `try` block of `handleCheckout` after the fetch (page.tsx lines
123-159), as the thrown-or-success outcome together with the number of
`getStripe()` calls and the session ids passed to `redirectToCheckout`. -/
def runCheckoutTry (env : CheckoutEnv) : Except String Unit × Nat × List String :=
  if env.response.ok = false then
    -- lines 123-134: derive the message from the error body when possible
    let errorMessage :=
      match env.response.parseResult with
      | ParseOutcome.thrown _ => sessionCreateFailedMsg
      | ParseOutcome.value none => sessionCreateFailedMsg
      | ParseOutcome.value (some body) =>
          match truthyStr body.error with
          | some e => e
          | none => sessionCreateFailedMsg
    (Except.error errorMessage, 0, [])
  else
    match env.response.parseResult with
    | ParseOutcome.thrown m => (Except.error m, 0, [])
    | ParseOutcome.value none => (Except.error missingSessionIdMsg, 0, [])
    | ParseOutcome.value (some body) =>
        match truthyStr body.sessionId with
        | none => (Except.error missingSessionIdMsg, 0, [])
        | some sid =>
            if env.stripeClient = false then
              (Except.error stripeInitFailedMsg, 1, [])
            else
              match env.redirectError with
              | none => (Except.ok (), 1, [sid])
              | some m =>
                  (Except.error ((truthyStr m).getD redirectFailedMsg), 1, [sid])

/-- The observable outcome of one `handleCheckout` invocation: the final
error message and loading flag, any navigation performed, whether the
checkout-session endpoint was called and with what payload, how many times
the payment client factory ran and which session ids were redirected to. -/
structure CheckoutResult where
  error : String
  isLoading : Bool
  navigation : Option String
  fetchCalled : Bool
  fetchPayload : Option CheckoutPayload
  getStripeCalls : Nat
  redirectCalls : List String
deriving Repr, DecidableEq

/-- `handleCheckout` (page.tsx lines 72-165), translated step by step:
no user ⇒ navigate to the login route with the encoded return target;
payment unavailable ⇒ set the configuration error and stop; otherwise set
loading, clear the error, build the payload, call the endpoint and run the
session/client/redirect chain, any thrown failure landing in the catch
block which prefixes the message and resets loading. -/
def handleCheckout (user : Option String) (stripeAvailable : Bool) (id : String)
    (product : Product) (pt : PurchaseType) (env : CheckoutEnv)
    (errorInit : String) (loadingInit : Bool) : CheckoutResult :=
  if user.isNone then
    { error := errorInit, isLoading := loadingInit
      navigation := some ("/login?redirect=" ++ encodeURIComponent ("/products/" ++ id))
      fetchCalled := false, fetchPayload := none
      getStripeCalls := 0, redirectCalls := [] }
  else if stripeAvailable = false then
    { error := configErrorMsg, isLoading := loadingInit, navigation := none
      fetchCalled := false, fetchPayload := none
      getStripeCalls := 0, redirectCalls := [] }
  else
    let payload := buildPayload product pt env
    match runCheckoutTry env with
    | (Except.ok _, g, r) =>
        { error := "", isLoading := true, navigation := none
          fetchCalled := true, fetchPayload := some payload
          getStripeCalls := g, redirectCalls := r }
    | (Except.error m, g, r) =>
        { error := checkoutErrPrefix ++ m, isLoading := false, navigation := none
          fetchCalled := true, fetchPayload := some payload
          getStripeCalls := g, redirectCalls := r }

/-- Reachable values of the `activeImageIndex` state for a given image
sequence: it is initialized to 0 (page.tsx line 16), and the thumbnail row —
rendered only when the sequence has more than one element (line 184) — sets
it to the index of a rendered thumbnail (line 189), which ranges over the
valid indices produced by `product.images.map`. -/
inductive ReachImageIndex (images : List String) : Nat → Prop where
  | init : ReachImageIndex images 0
  | click (prev i : Nat) (hp : ReachImageIndex images prev)
      (hgallery : 1 < images.length) (hi : i < images.length) :
      ReachImageIndex images i

/-- Reachable values of the `isLoading` flag for a product with the given
stock: it is initialized to false (page.tsx line 18); `handleCheckout` can
set it to true (line 84) only after a click on the trigger control, which
requires the control not to be disabled (line 280); a failed checkout
resets it to false (line 163). -/
inductive ReachLoading (stock : Nat) : Bool → Prop where
  | init : ReachLoading stock false
  | beginCheckout (h : ReachLoading stock false)
      (henabled : checkoutDisabled false stock = false) : ReachLoading stock true
  | checkoutFails (h : ReachLoading stock true) : ReachLoading stock false

/-- A concrete subscription-eligible product without a subscription price,
used for counterexamples and witnesses. -/
def sampleNoSubPrice : Product :=
  { id := "p1", name := "Akamee", description := "d", price := 1000
    subscriptionPrice := none, stock := 3, category := "c"
    images := ["/img/a.png", "https://cdn.example/b.png"], features := none
    isSubscription := true }

/-- A concrete product with zero stock. -/
def outOfStockProduct : Product :=
  { id := "p2", name := "Akamee", description := "d", price := 1000
    subscriptionPrice := none, stock := 0, category := "c"
    images := ["/img/a.png"], features := none
    isSubscription := false }

/-- A concrete environment: HTTP 400 with body carrying an error field. -/
def env400 : CheckoutEnv :=
  { response := { ok := false
                  parseResult := ParseOutcome.value
                    (some { error := some "out of stock", sessionId := none }) }
    stripeClient := true, redirectError := none
    siteUrl := none, windowOrigin := "https://example.com" }

/-- A concrete environment: OK response with session id `cs_123`, a working
payment client and a successful redirect. -/
def envOK : CheckoutEnv :=
  { response := { ok := true
                  parseResult := ParseOutcome.value
                    (some { error := none, sessionId := some "cs_123" }) }
    stripeClient := true, redirectError := none
    siteUrl := some "https://akamee.example", windowOrigin := "https://example.com" }

/-- A concrete environment: OK response whose body has no session id. -/
def envNoSession : CheckoutEnv :=
  { response := { ok := true
                  parseResult := ParseOutcome.value
                    (some { error := none, sessionId := none }) }
    stripeClient := true, redirectError := none
    siteUrl := none, windowOrigin := "https://example.com" }

/-- The catch block's contextual prefix is nonempty, so a caught failure
always leaves a nonempty inline error message. -/
lemma errPrefix_append_ne_empty (m : String) : checkoutErrPrefix ++ m ≠ "" := by
  intro h
  have hlen : (checkoutErrPrefix ++ m).length = 0 := by rw [h]; rfl
  rw [String.length_append] at hlen
  have hp : 0 < checkoutErrPrefix.length := by decide
  omega

/-- Once the user and configuration preconditions pass, the endpoint is
always called, whatever the environment does afterwards. -/
lemma handleCheckout_fetchCalled (u id e0 : String) (l0 : Bool) (p : Product)
    (pt : PurchaseType) (env : CheckoutEnv) :
    (handleCheckout (some u) true id p pt env e0 l0).fetchCalled = true := by
  unfold handleCheckout
  rcases h : runCheckoutTry env with ⟨o, g, r⟩
  cases o <;> simp [h]

/-- C1: with subscription mode selected on a subscription-eligible product,
the claim says the price display falls back to the base price when the
subscription price is absent; in the code the secondary display slot shows
the zero amount `formatPrice(0)` per month instead (the base price appears
only in the always-present primary slot). -/
theorem C1_display_counterexample :
    (priceDisplay sampleNoSubPrice PurchaseType.subscription).2 =
      some (formatPrice 0 ++ "/月") ∧
    (priceDisplay sampleNoSubPrice PurchaseType.subscription).2 ≠
      some (formatPrice sampleNoSubPrice.price ++ "/月") ∧
    (priceDisplay sampleNoSubPrice PurchaseType.subscription).2 ≠
      some (formatPrice sampleNoSubPrice.price) := by
  decide

/-- C1 (amended): for a subscription-eligible product in subscription mode,
the primary slot always shows the formatted base price; the secondary slot
shows the formatted subscription price when one is present, and the
formatted zero amount when it is absent. -/
theorem C1_price_display (p : Product) (h : p.isSubscription = true) :
    (priceDisplay p PurchaseType.subscription).1 = formatPrice p.price ∧
    (∀ sp, p.subscriptionPrice = some sp →
      (priceDisplay p PurchaseType.subscription).2 = some (formatPrice sp ++ "/月")) ∧
    (p.subscriptionPrice = none →
      (priceDisplay p PurchaseType.subscription).2 = some (formatPrice 0 ++ "/月")) := by
  refine ⟨rfl, ?_, ?_⟩ <;> intro hsp <;> simp [priceDisplay, h]
  · intro hsp2
    simp [hsp2]
  · simp [hsp]

/-- Witness for C1: the amended claim evaluated on the concrete product
without a subscription price. -/
theorem C1_price_display_witness :
    (priceDisplay sampleNoSubPrice PurchaseType.subscription).2 =
      some (formatPrice 0 ++ "/月") :=
  (C1_price_display sampleNoSubPrice rfl).2.2 rfl

/-- C2: on a non-OK response whose body carries `error: "out of stock"`,
the inline error text does not equal the body's error string exactly — the
catch block prefixes it — though the loading flag is reset to false. -/
theorem C2_exact_error_counterexample :
    (handleCheckout (some "u") true "p1" sampleNoSubPrice PurchaseType.oneTime
        env400 "" false).error ≠ "out of stock" ∧
    (handleCheckout (some "u") true "p1" sampleNoSubPrice PurchaseType.oneTime
        env400 "" false).error = checkoutErrPrefix ++ "out of stock" ∧
    (handleCheckout (some "u") true "p1" sampleNoSubPrice PurchaseType.oneTime
        env400 "" false).isLoading = false := by
  decide

/-- C2 (amended): on a non-OK response whose JSON body carries a nonempty
error string, the inline error text equals the contextual prefix followed
by that string, and the loading flag is reset to false. -/
theorem C2_error_prefixed (u id e0 : String) (l0 : Bool) (pt : PurchaseType)
    (p : Product) (env : CheckoutEnv) (body : JsonBody) (e : String)
    (hok : env.response.ok = false)
    (hparse : env.response.parseResult = ParseOutcome.value (some body))
    (herr : body.error = some e) (hne : e ≠ "") :
    (handleCheckout (some u) true id p pt env e0 l0).error = checkoutErrPrefix ++ e ∧
    (handleCheckout (some u) true id p pt env e0 l0).isLoading = false := by
  unfold handleCheckout runCheckoutTry
  simp [hok, hparse, herr, truthyStr, hne]

/-- Witness for C2: the amended claim evaluated on the concrete HTTP 400
environment. -/
theorem C2_error_prefixed_witness :
    (handleCheckout (some "u") true "p1" sampleNoSubPrice PurchaseType.oneTime
        env400 "" false).error = checkoutErrPrefix ++ "out of stock" ∧
    (handleCheckout (some "u") true "p1" sampleNoSubPrice PurchaseType.oneTime
        env400 "" false).isLoading = false :=
  C2_error_prefixed "u" "p1" "" false PurchaseType.oneTime sampleNoSubPrice env400
    { error := some "out of stock", sessionId := none } "out of stock"
    rfl rfl rfl (by decide)

/-- C4: with no authenticated user, `handleCheckout` never calls the
endpoint, navigates to the login route carrying the URL-encoded current
page as the return target, and leaves the error and loading state
unchanged. -/
theorem C4_unauthenticated_redirect (stripeAvailable : Bool) (id : String)
    (p : Product) (pt : PurchaseType) (env : CheckoutEnv) (e0 : String) (l0 : Bool) :
    (handleCheckout none stripeAvailable id p pt env e0 l0).fetchCalled = false ∧
    (handleCheckout none stripeAvailable id p pt env e0 l0).navigation =
      some ("/login?redirect=" ++ encodeURIComponent ("/products/" ++ id)) ∧
    (handleCheckout none stripeAvailable id p pt env e0 l0).error = e0 ∧
    (handleCheckout none stripeAvailable id p pt env e0 l0).isLoading = l0 := by
  simp [handleCheckout]

/-- C5: with an authenticated user but the payment-availability flag false,
`handleCheckout` sets the inline error to the configuration message, calls
no endpoint, navigates nowhere, and leaves the loading flag unchanged. -/
theorem C5_payment_unavailable (u id : String) (p : Product) (pt : PurchaseType)
    (env : CheckoutEnv) (e0 : String) (l0 : Bool) :
    (handleCheckout (some u) false id p pt env e0 l0).error = configErrorMsg ∧
    (handleCheckout (some u) false id p pt env e0 l0).fetchCalled = false ∧
    (handleCheckout (some u) false id p pt env e0 l0).navigation = none ∧
    (handleCheckout (some u) false id p pt env e0 l0).isLoading = l0 := by
  simp [handleCheckout]

/-- Once the loading flag is reachable for a zero-stock product, it is
still false: the only transition to true requires the trigger control to be
enabled, which zero stock forbids. -/
lemma reachLoading_zero (l : Bool) (h : ReachLoading 0 l) : l = false := by
  induction h with
  | init => rfl
  | beginCheckout h henabled ih => simp [checkoutDisabled] at henabled
  | checkoutFails h ih => rfl

/-- C3: once the user and configuration preconditions pass, the endpoint is
called and the outcome dichotomy holds — no error with loading kept true on
success, a nonempty prefixed error with loading reset on any failure; the
OK-without-session cases produce exactly the prefixed missing-session-id
message, the missing-client case the prefixed init-failure message, and a
provider-reported redirect error also sets an error and resets loading. -/
theorem C3_failure_handling (u id e0 : String) (l0 : Bool) (p : Product)
    (pt : PurchaseType) (env : CheckoutEnv) :
    (handleCheckout (some u) true id p pt env e0 l0).fetchCalled = true ∧
    ((handleCheckout (some u) true id p pt env e0 l0).error = "" ↔
      (handleCheckout (some u) true id p pt env e0 l0).isLoading = true) ∧
    (env.response.ok = false →
      (handleCheckout (some u) true id p pt env e0 l0).error ≠ "" ∧
      (handleCheckout (some u) true id p pt env e0 l0).isLoading = false) ∧
    (env.response.ok = true → env.response.parseResult = ParseOutcome.value none →
      (handleCheckout (some u) true id p pt env e0 l0).error =
        checkoutErrPrefix ++ missingSessionIdMsg ∧
      (handleCheckout (some u) true id p pt env e0 l0).isLoading = false) ∧
    (∀ body, env.response.ok = true →
      env.response.parseResult = ParseOutcome.value (some body) →
      truthyStr body.sessionId = none →
      (handleCheckout (some u) true id p pt env e0 l0).error =
        checkoutErrPrefix ++ missingSessionIdMsg ∧
      (handleCheckout (some u) true id p pt env e0 l0).isLoading = false) ∧
    (∀ body sid, env.response.ok = true →
      env.response.parseResult = ParseOutcome.value (some body) →
      truthyStr body.sessionId = some sid → env.stripeClient = false →
      (handleCheckout (some u) true id p pt env e0 l0).error =
        checkoutErrPrefix ++ stripeInitFailedMsg ∧
      (handleCheckout (some u) true id p pt env e0 l0).isLoading = false) ∧
    (∀ body sid m, env.response.ok = true →
      env.response.parseResult = ParseOutcome.value (some body) →
      truthyStr body.sessionId = some sid → env.stripeClient = true →
      env.redirectError = some m →
      (handleCheckout (some u) true id p pt env e0 l0).error ≠ "" ∧
      (handleCheckout (some u) true id p pt env e0 l0).isLoading = false) := by
  refine ⟨handleCheckout_fetchCalled u id e0 l0 p pt env, ?_, ?_, ?_, ?_, ?_, ?_⟩
  · unfold handleCheckout
    rcases h : runCheckoutTry env with ⟨o, g, r⟩
    cases o with
    | ok a => simp [h]
    | error m => simp [h, errPrefix_append_ne_empty]
  · intro hok
    unfold handleCheckout runCheckoutTry
    simp [hok, errPrefix_append_ne_empty]
  · intro hok hparse
    unfold handleCheckout runCheckoutTry
    simp [hok, hparse]
  · intro body hok hparse hsid
    unfold handleCheckout runCheckoutTry
    simp [hok, hparse, hsid]
  · intro body sid hok hparse hsid hclient
    unfold handleCheckout runCheckoutTry
    simp [hok, hparse, hsid, hclient]
  · intro body sid m hok hparse hsid hclient hredir
    unfold handleCheckout runCheckoutTry
    simp [hok, hparse, hsid, hclient, hredir, errPrefix_append_ne_empty]

/-- Witness for C3: the OK-response-without-session-id case evaluated on a
concrete environment. -/
theorem C3_failure_handling_witness :
    (handleCheckout (some "u") true "p1" sampleNoSubPrice PurchaseType.oneTime
        envNoSession "" false).error = checkoutErrPrefix ++ missingSessionIdMsg ∧
    (handleCheckout (some "u") true "p1" sampleNoSubPrice PurchaseType.oneTime
        envNoSession "" false).isLoading = false :=
  (C3_failure_handling "u" "p1" "" false sampleNoSubPrice PurchaseType.oneTime
      envNoSession).2.2.2.2.1
    { error := none, sessionId := none } rfl rfl rfl

/-- C6: the resolver is the linear search `find?` by identifier equality:
an identifier present in the catalog resolves to a matching catalog record
(the unique one when identifiers are pairwise distinct), and an absent
identifier resolves to none, upon which the not-found view renders. -/
theorem C6_resolver (catalog : List Product) (id : String) :
    (∀ p, p ∈ catalog → p.id = id →
      ∃ q, findProduct catalog id = some q ∧ q ∈ catalog ∧ q.id = id) ∧
    (List.Pairwise (fun a b => a.id ≠ b.id) catalog →
      ∀ p, p ∈ catalog → p.id = id → findProduct catalog id = some p) ∧
    ((∀ p ∈ catalog, p.id ≠ id) →
      findProduct catalog id = none ∧ renderPage catalog id = PageView.notFound) := by
  refine ⟨?_, ?_, ?_⟩
  · intro p hp hid
    cases hfind : findProduct catalog id with
    | none =>
      rw [findProduct, List.find?_eq_none] at hfind
      exact absurd (by simpa using hid) (by simpa using hfind p hp)
    | some q =>
      refine ⟨q, rfl, List.mem_of_find?_eq_some hfind, ?_⟩
      simpa using List.find?_some hfind
  · induction catalog with
    | nil => intro _ p hp; simp at hp
    | cons c cs ih =>
      intro hpw p hp hid
      rw [List.pairwise_cons] at hpw
      by_cases hc : c.id = id
      · have hfp : findProduct (c :: cs) id = some c := by
          rw [findProduct, List.find?_cons_of_pos]
          simpa using hc
        rcases List.mem_cons.mp hp with h | h
        · rw [hfp, h]
        · exact absurd (hc.trans hid.symm) (hpw.1 p h)
      · have hfp : findProduct (c :: cs) id = findProduct cs id := by
          rw [findProduct, findProduct, List.find?_cons_of_neg]
          simpa using hc
        rcases List.mem_cons.mp hp with h | h
        · exact absurd (h ▸ hid) hc
        · rw [hfp]
          exact ih hpw.2 p h hid
  · intro hall
    have hnone : findProduct catalog id = none := by
      rw [findProduct, List.find?_eq_none]
      intro x hx
      simpa using hall x hx
    exact ⟨hnone, by simp [renderPage, hnone]⟩

/-- Witness for C6: a present identifier resolves to its record, and an
absent identifier renders the not-found view. -/
theorem C6_resolver_witness :
    findProduct [sampleNoSubPrice] "p1" = some sampleNoSubPrice ∧
    findProduct [sampleNoSubPrice] "zz" = none ∧
    renderPage [sampleNoSubPrice] "zz" = PageView.notFound :=
  ⟨(C6_resolver [sampleNoSubPrice] "p1").2.1 (by simp) sampleNoSubPrice (by simp) rfl,
   ((C6_resolver [sampleNoSubPrice] "zz").2.2 (by decide)).1,
   ((C6_resolver [sampleNoSubPrice] "zz").2.2 (by decide)).2⟩

/-- C7: an OK response with a session identifier, a working payment client
and a successful redirect invokes the client factory exactly once and the
redirect exactly once with exactly that session identifier, keeps the
loading flag true and leaves no error. -/
theorem C7_success_exactly_once (u id e0 : String) (l0 : Bool) (p : Product)
    (pt : PurchaseType) (env : CheckoutEnv) (body : JsonBody) (sid : String)
    (hok : env.response.ok = true)
    (hparse : env.response.parseResult = ParseOutcome.value (some body))
    (hsid : body.sessionId = some sid) (hne : sid ≠ "")
    (hclient : env.stripeClient = true)
    (hredir : env.redirectError = none) :
    (handleCheckout (some u) true id p pt env e0 l0).getStripeCalls = 1 ∧
    (handleCheckout (some u) true id p pt env e0 l0).redirectCalls = [sid] ∧
    (handleCheckout (some u) true id p pt env e0 l0).isLoading = true ∧
    (handleCheckout (some u) true id p pt env e0 l0).error = "" := by
  unfold handleCheckout runCheckoutTry
  simp [hok, hparse, hsid, truthyStr, hne, hclient, hredir]

/-- Witness for C7: the success path evaluated with session id `cs_123`. -/
theorem C7_success_exactly_once_witness :
    (handleCheckout (some "u") true "p1" sampleNoSubPrice PurchaseType.oneTime
        envOK "" false).getStripeCalls = 1 ∧
    (handleCheckout (some "u") true "p1" sampleNoSubPrice PurchaseType.oneTime
        envOK "" false).redirectCalls = ["cs_123"] ∧
    (handleCheckout (some "u") true "p1" sampleNoSubPrice PurchaseType.oneTime
        envOK "" false).isLoading = true ∧
    (handleCheckout (some "u") true "p1" sampleNoSubPrice PurchaseType.oneTime
        envOK "" false).error = "" :=
  C7_success_exactly_once "u" "p1" "" false sampleNoSubPrice PurchaseType.oneTime
    envOK { error := none, sessionId := some "cs_123" } "cs_123"
    rfl rfl rfl (by decide) rfl rfl

/-- C8: the claim quantifies over every product, but with an empty image
sequence the initial state (index 0) is reachable while no index is valid,
so the in-range invariant fails there. -/
theorem C8_index_counterexample :
    ReachImageIndex [] 0 ∧ ¬ (0 < ([] : List String).length) :=
  ⟨ReachImageIndex.init, by decide⟩

/-- C8 (amended): provided the product's image sequence is nonempty, every
reachable active image index is a valid index of it — it starts at 0 and
thumbnail clicks only set it to rendered (hence valid) indices. -/
theorem C8_index_in_range (images : List String) (n : Nat)
    (hne : images ≠ []) (h : ReachImageIndex images n) : n < images.length := by
  induction h with
  | init => exact List.length_pos.mpr hne
  | click prev i hp hg hi ih => exact hi

/-- Witness for C8: the invariant evaluated on a two-image gallery in its
initial state. -/
theorem C8_index_in_range_witness : 0 < (["a", "b"] : List String).length :=
  C8_index_in_range ["a", "b"] 0 (by decide) ReachImageIndex.init

/-- C9: the checkout control is enabled exactly when stock is positive and
loading is false, and for a zero-stock product every reachable loading
state leaves the control disabled with the out-of-stock label; the control
reads neither the authentication nor the payment-availability state, so the
claim holds regardless of them. -/
theorem C9_checkout_gating (stock : Nat) (loading : Bool) :
    (checkoutDisabled loading stock = false ↔ 0 < stock ∧ loading = false) ∧
    (stock = 0 → ReachLoading stock loading →
      checkoutDisabled loading stock = true ∧
      checkoutLabel loading stock = "在庫切れ") := by
  constructor
  · cases loading
    · simp [checkoutDisabled]
      omega
    · simp [checkoutDisabled]
  · intro h0 hr
    subst h0
    have hl := reachLoading_zero loading hr
    subst hl
    exact ⟨by simp [checkoutDisabled], by simp [checkoutLabel]⟩

/-- Witness for C9: the zero-stock initial state. -/
theorem C9_checkout_gating_witness :
    checkoutDisabled false 0 = true ∧ checkoutLabel false 0 = "在庫切れ" :=
  (C9_checkout_gating 0 false).2 rfl ReachLoading.init

/-- C10: `handleCheckout` itself checks neither stock nor the loading flag:
with an authenticated user and payment available it calls the endpoint even
for a zero-stock product and even when loading is already true — the stock
and loading guards live only in the trigger control's disabled attribute. -/
theorem C10_handler_no_guard (u id e0 : String) (p : Product)
    (pt : PurchaseType) (env : CheckoutEnv) (l0 : Bool) (_hstock : p.stock = 0) :
    (handleCheckout (some u) true id p pt env e0 l0).fetchCalled = true ∧
    (handleCheckout (some u) true id p pt env e0 true).fetchCalled = true :=
  ⟨handleCheckout_fetchCalled u id e0 l0 p pt env,
   handleCheckout_fetchCalled u id e0 true p pt env⟩

/-- Witness for C10: the zero-stock product still triggers the endpoint
call, both from a non-loading and from a loading state. -/
theorem C10_handler_no_guard_witness :
    (handleCheckout (some "u") true "p2" outOfStockProduct PurchaseType.oneTime
        env400 "" false).fetchCalled = true ∧
    (handleCheckout (some "u") true "p2" outOfStockProduct PurchaseType.oneTime
        env400 "" true).fetchCalled = true :=
  C10_handler_no_guard "u" "p2" "" outOfStockProduct PurchaseType.oneTime env400
    false rfl

end Akamee
